import Mathlib

/-!
Shallow embedding of the LibreLink MCP server's Secure Session & Credential
Lifecycle Manager (`src/librelink-client.ts`, `src/index.ts`).

The mutable fields of the TypeScript class `LibreLinkClient`, together with the
persisted token store managed by its `ConfigManager`, are collected in a
`World` record.  Network interaction is modelled by a trace: a list of server
responses consumed in order by each HTTP call.  Recursive calls without a
structural bound in the source (`login()` on region redirect,
`getConnections()` / `getGraphData()` on a 401 response) are embedded with an
explicit fuel parameter; exhausting the fuel (`LLError.outOfFuel`) is the
model's rendering of a run of the TypeScript code that has not yet returned.

JavaScript string truthiness (`if (!this.jwtToken)` etc.) is modelled by
`truthy`: an `Option String` is truthy exactly when it is `some s` with
`s ≠ ""`.  Times are kept in milliseconds as integers, exactly as
`Date.now()` and `tokenExpires` are in the source.
-/

namespace LibreLink

/-- Decidable equality for `Except`, so that concrete runs of the embedded
operations can be settled by `decide`. -/
instance {ε α : Type} [DecidableEq ε] [DecidableEq α] : DecidableEq (Except ε α) := fun x y =>
  match x, y with
  | .ok a, .ok b =>
    if h : a = b then isTrue (by rw [h]) else isFalse (fun hc => h (Except.ok.inj hc))
  | .error a, .error b =>
    if h : a = b then isTrue (by rw [h]) else isFalse (fun hc => h (Except.error.inj hc))
  | .ok _, .error _ => isFalse (fun hc => Except.noConfusion hc)
  | .error _, .ok _ => isFalse (fun hc => Except.noConfusion hc)

/-- ASCII upper-casing, character by character (JavaScript's `toUpperCase()`
restricted to the ASCII region codes it is applied to; written over the
character list so the kernel can evaluate it). -/
def jsUpper (s : String) : String := ⟨s.data.map Char.toUpper⟩

/-- ASCII lower-casing, character by character (JavaScript's
`toLowerCase()`). -/
def jsLower (s : String) : String := ⟨s.data.map Char.toLower⟩

/-- The configuration record (`LibreLinkConfig` in `types.ts`, as used by
`librelink-client.ts`): credentials, region, target range and client version. -/
structure LibreLinkConfig where
  email : String
  password : String
  region : String
  targetLow : Int
  targetHigh : Int
  clientVersion : String
  deriving DecidableEq, Repr

/-- A partial configuration, as passed to `updateConfig(newConfig:
Partial<LibreLinkConfig>)`: every field optional; `none` means the key is
absent from the partial object. -/
structure ConfigPatch where
  email : Option String := none
  password : Option String := none
  region : Option String := none
  targetLow : Option Int := none
  targetHigh : Option Int := none
  clientVersion : Option String := none
  deriving DecidableEq, Repr

/-- The persisted token bundle (`StoredTokenData` in `secure-storage.ts`),
exactly the fields written by `saveSession` and read by `tryRestoreSession`. -/
structure StoredTokenData where
  token : String
  expires : Int
  userId : String
  accountId : String
  region : String
  deriving DecidableEq, Repr

/-- Modelled from the spec: the state of the encrypted token store that
`configManager.getToken()` reads (`config.ts` / `secure-storage.ts` are not
part of the sources here).  Per spec §4.3/§4.4 a `load` either returns the
bundle, reports it absent, or throws on a malformed envelope / failed tag
check (`CorruptedStoreError`); `corrupted` is the state in which `getToken()`
throws. -/
inductive StoreState where
  | absent
  | present (t : StoredTokenData)
  | corrupted
  deriving DecidableEq, Repr

/-- JavaScript truthiness of an optional string: `undefined`/`null` and the
empty string are falsy, every other string is truthy. -/
def truthy : Option String → Bool
  | none => false
  | some s => s != ""

/-- Modelled from the spec: the `LIBRE_LINK_SERVERS` table of `types.ts`
(not among the sources).  The 13 regions are the ones enumerated by
`index.ts` (`AE, AP, AU, CA, CN, DE, EU, EU2, FR, JP, LA, RU, US`) plus the
`GLOBAL` fallback; each maps to its regional `libreview.io` endpoint. -/
def LIBRE_LINK_SERVERS (r : String) : Option String :=
  if r == "GLOBAL" then some "https://api.libreview.io"
  else if r ∈ ["AE", "AP", "AU", "CA", "CN", "DE", "EU", "EU2", "FR", "JP", "LA", "RU", "US"] then
    some ("https://api-" ++ jsLower r ++ ".libreview.io")
  else none

/-- `LIBRE_LINK_SERVERS[r] || LIBRE_LINK_SERVERS['GLOBAL']`, the idiom used at
every place the source picks a base URL. -/
def serverFor (r : String) : String :=
  (LIBRE_LINK_SERVERS r).getD "https://api.libreview.io"

/-- The whole mutable state relevant to the session manager: the private
fields of class `LibreLinkClient`, whether a `ConfigManager` was supplied to
the constructor, the persisted token store behind that manager, and the
current clock (`Date.now()`, milliseconds), held constant during a run. -/
structure World where
  config : LibreLinkConfig
  hasConfigManager : Bool
  baseUrl : String
  jwtToken : Option String
  userId : Option String
  accountId : Option String
  patientId : Option String
  tokenExpires : Int
  store : StoreState
  now : Int
  deriving DecidableEq, Repr

/-- The `LibreLinkClient` constructor: defaults the client version when the
configured one is falsy, and picks the base URL from the region table. -/
def mkClient (config : LibreLinkConfig) (hasManager : Bool) (store : StoreState)
    (now : Int) : World :=
  { config := { config with clientVersion :=
      if config.clientVersion == "" then "4.16.0" else config.clientVersion }
    hasConfigManager := hasManager
    baseUrl := serverFor config.region
    jwtToken := none
    userId := none
    accountId := none
    patientId := none
    tokenExpires := 0
    store := store
    now := now }

/-- `generateAccountId(userId)`: the hex SHA-256 digest of the user id.  The
digest primitive (Node's `crypto.createHash('sha256')`) is external library
code, so it enters the model as the function parameter `H`; every theorem
below holds for an arbitrary digest function. -/
def generateAccountId (H : String → String) (userId : String) : String :=
  H userId

/-- `isTokenValid()`: token and account id truthy, and `Date.now()` strictly
below `tokenExpires` minus the 5-minute (300 000 ms) buffer. -/
def isTokenValid (w : World) : Bool :=
  truthy w.jwtToken && truthy w.accountId && decide (w.now < w.tokenExpires - 300000)

/-- The default headers of `createClient()`. -/
def baseHeaders (w : World) : List (String × String) :=
  [("Accept", "application/json"), ("Content-Type", "application/json"),
   ("Accept-Encoding", "gzip"), ("Cache-Control", "no-cache"),
   ("Connection", "Keep-Alive"), ("product", "llu.android"),
   ("version", w.config.clientVersion)]

/-- The errors the embedded operations can surface.  `outOfFuel` is the model
artifact standing for a run of the source that has not returned within the
given fuel; `badTrace` stands for a response of the wrong shape for the call
being made (never hit on the traces used below). -/
inductive LLError where
  | outOfFuel
  | badTrace
  | loginInvalidResponse
  | minimumVersion (required current : String)
  | requiredHeaderMissing
  | authFailed
  | loginFailed (msg : String)
  | notAuthenticated
  | noConnections
  | httpError (code : Int)
  deriving DecidableEq, Repr

/-- `createAuthenticatedClient()`: throws unless both the JWT token and the
account id are truthy; otherwise returns a client whose headers extend the
default headers with `Authorization: Bearer <token>` and `Account-Id`. -/
def createAuthenticatedClient (w : World) : Except LLError (List (String × String)) :=
  if truthy w.jwtToken && truthy w.accountId then
    .ok (baseHeaders w ++
      [("Authorization", "Bearer " ++ w.jwtToken.getD ""),
       ("Account-Id", w.accountId.getD "")])
  else .error .notAuthenticated

/-- A connection record, of which only `patientId` is used by the client. -/
structure Connection where
  patientId : String
  deriving DecidableEq, Repr

/-- The graph payload returned by the `/graph` endpoint; its contents are
irrelevant to the session-lifecycle claims, so it is kept opaque. -/
structure GraphResponse where
  payload : String
  deriving DecidableEq, Repr

/-- The `authTicket` object of a login response body. -/
structure AuthTicket where
  token : String
  expires : Int
  deriving DecidableEq, Repr

/-- The JSON body of a 2xx login response, with the fields `login()`
inspects: the redirect flag and region, the status, the auth ticket, and the
user id. -/
structure LoginBody where
  redirect : Bool
  region : Option String
  status : Int
  authTicket : Option AuthTicket
  userId : String
  deriving DecidableEq, Repr

/-- The upstream's possible answers to the login POST: a 2xx body, a 401, a
403 (with optional `data.minimumVersion` and the `RequiredHeaderMissing`
message flag), or another axios-level failure. -/
inductive LoginHttp where
  | ok (body : LoginBody)
  | code401
  | code403 (minimumVersion : Option String) (requiredHeaderMissing : Bool)
  | other (msg : String)
  deriving DecidableEq, Repr

/-- The upstream's possible answers to the connections GET; `ok none` models a
2xx body whose `data` field is null (the source's `response.data.data || []`). -/
inductive ConnHttp where
  | ok (conns : Option (List Connection))
  | code401
  | other (code : Int)
  deriving DecidableEq, Repr

/-- The upstream's possible answers to the graph GET. -/
inductive GraphHttp where
  | ok (g : GraphResponse)
  | code401
  | other (code : Int)
  deriving DecidableEq, Repr

/-- One element of the network trace: the next server response, tagged by the
endpoint it answers. -/
inductive Resp where
  | auth (r : LoginHttp)
  | conn (r : ConnHttp)
  | graph (r : GraphHttp)
  deriving DecidableEq, Repr

/-- Result of an embedded operation: outcome, final state, remaining trace. -/
abbrev LLRes (α : Type) := Except LLError α × World × List Resp

/-- `tryRestoreSession()`: returns false without touching anything when no
`ConfigManager` was supplied; any exception from `getToken()` (in particular
an integrity failure on the stored envelope, the `corrupted` store state) is
caught and turned into `false` with the state untouched; an absent bundle
gives `false`; a bundle whose region differs from the configured region is
deleted and `false` returned; otherwise the bundle's fields are adopted into
memory, the base URL is recomputed for its region, and `true` is returned. -/
def tryRestoreSession (w : World) : Bool × World :=
  if w.hasConfigManager then
    match w.store with
    | .corrupted => (false, w)
    | .absent => (false, w)
    | .present t =>
      if t.region != w.config.region then
        (false, { w with store := .absent })
      else
        (true, { w with
          jwtToken := some t.token
          tokenExpires := t.expires
          userId := some t.userId
          accountId := some t.accountId
          baseUrl := serverFor t.region })
  else (false, w)

/-- `saveSession()`: writes the bundle to the store only when a manager is
present and token, user id and account id are all truthy; otherwise a no-op
(its own errors are caught internally and do not escape). -/
def saveSession (w : World) : World :=
  if w.hasConfigManager && truthy w.jwtToken && truthy w.userId && truthy w.accountId then
    let bundle : StoredTokenData :=
      ⟨w.jwtToken.getD "", w.tokenExpires, w.userId.getD "",
       w.accountId.getD "", w.config.region⟩
    { w with store := StoreState.present bundle }
  else w

/-- `login()`: consumes one login response from the trace.  On a body with
`redirect` set and a region present, the base URL and configured region are
updated (upper-cased region looked up in the server table, with the source's
string-template fallback) and `login()` recurses on the remaining trace.  On
`status ≠ 0` or a missing auth ticket it fails.  On success it adopts token
(expiry converted seconds → milliseconds), user id and the derived account id,
then saves the session.  The catch block maps a 403 with `minimumVersion`,
a 403 with `RequiredHeaderMissing`, a 401, and any other axios failure to
their distinct errors. -/
def login (H : String → String) : Nat → World → List Resp → LLRes Unit
  | 0, w, tr => (.error .outOfFuel, w, tr)
  | fuel + 1, w, tr =>
    match tr with
    | .auth (.ok body) :: rest =>
      if body.redirect && body.region.isSome then
        let reg := body.region.getD ""
        let newRegion := jsUpper reg
        let newBase := match LIBRE_LINK_SERVERS newRegion with
          | some u => u
          | none => "https://api-" ++ reg ++ ".libreview.io"
        login H fuel
          { w with baseUrl := newBase, config := { w.config with region := newRegion } }
          rest
      else
        match body.authTicket with
        | none => (.error .loginInvalidResponse, w, rest)
        | some t =>
          if body.status != 0 then (.error .loginInvalidResponse, w, rest)
          else
            let w1 := { w with
              jwtToken := some t.token
              tokenExpires := t.expires * 1000
              userId := some body.userId
              accountId := some (generateAccountId H body.userId) }
            (.ok (), saveSession w1, rest)
    | .auth .code401 :: rest => (.error .authFailed, w, rest)
    | .auth (.code403 minV reqH) :: rest =>
      match minV with
      | some v => (.error (.minimumVersion v w.config.clientVersion), w, rest)
      | none =>
        if reqH then (.error .requiredHeaderMissing, w, rest)
        else (.error (.loginFailed "HTTP 403"), w, rest)
    | .auth (.other msg) :: rest => (.error (.loginFailed msg), w, rest)
    | _ => (.error .badTrace, w, tr)

/-- `ensureAuthenticated()`: return at once when the in-memory token is valid;
otherwise run `tryRestoreSession()` and return if the token is then valid;
otherwise `login()`. -/
def ensureAuthenticated (H : String → String) (fuel : Nat) (w : World)
    (tr : List Resp) : LLRes Unit :=
  if isTokenValid w then (.ok (), w, tr)
  else
    let w1 := (tryRestoreSession w).2
    if isTokenValid w1 then (.ok (), w1, tr)
    else login H fuel w1 tr

/-- `getConnections()`: authenticate, build the authenticated client, GET the
connections endpoint.  On a 401 the stored token is cleared (when a manager is
present), the in-memory token dropped, `ensureAuthenticated()` re-run, and the
whole call retried; this retry is the recursion the fuel bounds. -/
def getConnections (H : String → String) :
    Nat → World → List Resp → LLRes (List Connection)
  | 0, w, tr => (.error .outOfFuel, w, tr)
  | fuel + 1, w, tr =>
    match ensureAuthenticated H fuel w tr with
    | (.error e, w1, tr1) => (.error e, w1, tr1)
    | (.ok _, w1, tr1) =>
      match createAuthenticatedClient w1 with
      | .error e => (.error e, w1, tr1)
      | .ok _ =>
        match tr1 with
        | .conn (.ok cs) :: rest => (.ok (cs.getD []), w1, rest)
        | .conn .code401 :: rest =>
          let w2 := { w1 with
            store := if w1.hasConfigManager then .absent else w1.store
            jwtToken := none }
          match ensureAuthenticated H fuel w2 rest with
          | (.error e, w3, tr3) => (.error e, w3, tr3)
          | (.ok _, w3, tr3) => getConnections H fuel w3 tr3
        | .conn (.other c) :: rest => (.error (.httpError c), w1, rest)
        | _ => (.error .badTrace, w1, tr1)

/-- `getPatientId()`: cached patient id if present, else the first connection
(failing with the no-connections message when the list is empty). -/
def getPatientId (H : String → String) (fuel : Nat) (w : World)
    (tr : List Resp) : LLRes String :=
  match w.patientId with
  | some p => (.ok p, w, tr)
  | none =>
    match getConnections H fuel w tr with
    | (.error e, w1, tr1) => (.error e, w1, tr1)
    | (.ok [], w1, tr1) => (.error .noConnections, w1, tr1)
    | (.ok (c :: _), w1, tr1) =>
      (.ok c.patientId, { w1 with patientId := some c.patientId }, tr1)

/-- `getGraphData()`: authenticate, resolve the patient id, build the
authenticated client, GET the graph endpoint; same 401 handling as
`getConnections()`, retrying the whole call. -/
def getGraphData (H : String → String) :
    Nat → World → List Resp → LLRes GraphResponse
  | 0, w, tr => (.error .outOfFuel, w, tr)
  | fuel + 1, w, tr =>
    match ensureAuthenticated H fuel w tr with
    | (.error e, w1, tr1) => (.error e, w1, tr1)
    | (.ok _, w1, tr1) =>
      match getPatientId H fuel w1 tr1 with
      | (.error e, w2, tr2) => (.error e, w2, tr2)
      | (.ok _, w2, tr2) =>
        match createAuthenticatedClient w2 with
        | .error e => (.error e, w2, tr2)
        | .ok _ =>
          match tr2 with
          | .graph (.ok g) :: rest => (.ok g, w2, rest)
          | .graph .code401 :: rest =>
            let w3 := { w2 with
              store := if w2.hasConfigManager then .absent else w2.store
              jwtToken := none }
            match ensureAuthenticated H fuel w3 rest with
            | (.error e, w4, tr4) => (.error e, w4, tr4)
            | (.ok _, w4, tr4) => getGraphData H fuel w4 tr4
          | .graph (.other c) :: rest => (.error (.httpError c), w2, rest)
          | _ => (.error .badTrace, w2, tr2)

/-- Merge of `{ ...this.config, ...newConfig }`: present keys override. -/
def mergeConfig (c : LibreLinkConfig) (p : ConfigPatch) : LibreLinkConfig :=
  { email := p.email.getD c.email
    password := p.password.getD c.password
    region := p.region.getD c.region
    targetLow := p.targetLow.getD c.targetLow
    targetHigh := p.targetHigh.getD c.targetHigh
    clientVersion := p.clientVersion.getD c.clientVersion }

/-- `updateConfig(newConfig)`: merge the patch into the config; when the patch
carries a truthy email, password or region, null out `jwtToken`, `accountId`
and `patientId`, and when the region is truthy also repoint the base URL. -/
def updateConfig (p : ConfigPatch) (w : World) : World :=
  let w1 := { w with config := mergeConfig w.config p }
  if truthy p.email || truthy p.password || truthy p.region then
    let w2 := { w1 with jwtToken := none, accountId := none, patientId := none }
    if truthy p.region then { w2 with baseUrl := serverFor (p.region.getD "") }
    else w2
  else w1

/-- `clearSession()` on the client: null token, account id, user id and
patient id, zero the expiry, and delete the stored bundle when a manager is
present. -/
def clearSession (w : World) : World :=
  let w1 := { w with
    jwtToken := none
    accountId := none
    userId := none
    patientId := none
    tokenExpires := 0 }
  if w1.hasConfigManager then { w1 with store := .absent } else w1

/-- The `clear_session` tool handler of `index.ts`: run the client's
`clearSession()`, then `configManager.clearToken()` unconditionally. -/
def clearSessionHandler (w : World) : World :=
  { clearSession w with store := .absent }

/-- The record returned by `getSessionStatus()`. -/
structure SessionStatus where
  authenticated : Bool
  tokenValid : Bool
  expiresAt : Option Int
  deriving DecidableEq, Repr

/-- `getSessionStatus()`: `!!jwtToken`, `isTokenValid()`, and the expiry when
positive. -/
def getSessionStatus (w : World) : SessionStatus :=
  { authenticated := truthy w.jwtToken
    tokenValid := isTokenValid w
    expiresAt := if w.tokenExpires > 0 then some w.tokenExpires else none }

end LibreLink

namespace LibreLink

/-- A concrete stand-in digest function, used by the closed counterexample and
witness statements (the universally quantified theorems hold for any digest). -/
def H0 : String → String := fun s => "h:" ++ s

/-- A successful login body: status 0, auth ticket expiring at 2 000 000 s,
user id `u1`. -/
def okBody : LoginBody :=
  { redirect := false, region := none, status := 0
    authTicket := some ⟨"tok2", 2000000⟩, userId := "u1" }

/-- A region-redirect login body pointing at region `r`. -/
def redirBody (r : String) : LoginBody :=
  { redirect := true, region := some r, status := 0
    authTicket := none, userId := "" }

/-- The configuration used by the concrete scenarios: region EU. -/
def cfgEU : LibreLinkConfig :=
  { email := "a@b.com", password := "pw", region := "EU"
    targetLow := 70, targetHigh := 180, clientVersion := "4.16.0" }

/-- A freshly constructed client over `cfgEU`, with a config manager, an empty
token store, and the clock at 1 000 000 000 ms. -/
def wFresh : World := mkClient cfgEU true .absent 1000000000

/-- `wFresh` holding a valid in-memory session (expiry 1 500 000 000 ms, i.e.
500 000 s of margin). -/
def wValid : World :=
  { wFresh with
    jwtToken := some "tokOld"
    accountId := some "acctOld"
    userId := some "uOld"
    tokenExpires := 1500000000 }

/-- A trace for `getConnections` with `k` leading 401 rejections, each
followed by a successful re-login, then a successful connections response. -/
def connCycleTrace : Nat → List Resp
  | 0 => [Resp.conn (.ok (some [⟨"p1"⟩]))]
  | k + 1 => Resp.conn .code401 :: Resp.auth (.ok okBody) :: connCycleTrace k

/-- A trace for `getGraphData` with `k` leading 401 rejections, each followed
by a successful re-login, then a successful graph response. -/
def graphCycleTrace : Nat → List Resp
  | 0 => [Resp.graph (.ok ⟨"graph"⟩)]
  | k + 1 => Resp.graph .code401 :: Resp.auth (.ok okBody) :: graphCycleTrace k

/-- A trace of `n` consecutive region-redirect login responses. -/
def redirTrace : Nat → List Resp
  | 0 => []
  | n + 1 => Resp.auth (.ok (redirBody "us")) :: redirTrace n


end LibreLink

namespace LibreLink

/-- A token whose expiry is at most the 300 000 ms safety margin away is
reported invalid. -/
theorem isTokenValid_false_of_expiry (w : World) (h : w.tokenExpires ≤ w.now + 300000) :
    isTokenValid w = false := by
  have hd : decide (w.now < w.tokenExpires - 300000) = false := by
    simp only [decide_eq_false_iff_not, not_lt]
    omega
  simp [isTokenValid, hd]

/-- A failed restoration attempt leaves every in-memory field unchanged: the
result state is the input state, possibly with the stored bundle deleted. -/
theorem tryRestoreSession_false_eq (w : World) (h : (tryRestoreSession w).1 = false) :
    (tryRestoreSession w).2 = w ∨
    (tryRestoreSession w).2 = { w with store := StoreState.absent } := by
  unfold tryRestoreSession at h ⊢
  by_cases hm : w.hasConfigManager
  · simp only [hm, if_true] at h ⊢
    match hs : w.store with
    | .corrupted => simp [hs]
    | .absent => simp [hs]
    | .present t =>
      simp only [hs] at h ⊢
      by_cases hr : (t.region != w.config.region) = true
      · simp [hr]
      · simp only [Bool.not_eq_true] at hr
        simp [hr] at h
  · simp [hm]

/-- Token validity is unaffected by a failed restoration attempt. -/
theorem isTokenValid_tryRestoreSession_false (w : World)
    (h : (tryRestoreSession w).1 = false) :
    isTokenValid (tryRestoreSession w).2 = isTokenValid w := by
  rcases tryRestoreSession_false_eq w h with h2 | h2
  · rw [h2]
  · rw [h2]; rfl

/-- C3: `ensureAuthenticated()` returns immediately, consuming no trace and
touching neither the state nor the store, whenever the in-memory token is
valid (expiry more than the 300 s margin in the future); conversely a token
whose expiry is at most 300 000 ms away is reported invalid, and when
restoration also fails the call falls through to a fresh `login()`. -/
theorem ensureAuthenticated_safety_margin (H : String → String) (fuel : Nat)
    (w : World) (tr : List Resp) :
    (isTokenValid w = true → ensureAuthenticated H fuel w tr = (.ok (), w, tr)) ∧
    (w.tokenExpires ≤ w.now + 300000 →
      isTokenValid w = false ∧
      ((tryRestoreSession w).1 = false →
        ensureAuthenticated H fuel w tr = login H fuel (tryRestoreSession w).2 tr)) := by
  constructor
  · intro h
    simp [ensureAuthenticated, h]
  · intro h
    have hv := isTokenValid_false_of_expiry w h
    refine ⟨hv, fun hr => ?_⟩
    have hv2 : isTokenValid (tryRestoreSession w).2 = false := by
      rw [isTokenValid_tryRestoreSession_false w hr]; exact hv
    simp [ensureAuthenticated, hv, hv2]

/-- The state of the safety-margin scenario: a stored/in-memory token with
`expires = now + 120 s`. -/
def wMargin : World := { wValid with tokenExpires := 1000120000 }

/-- Witness for the safety-margin theorem: with 500 000 s of margin the call
is the identity; with 120 s of margin the token is invalid and the call is a
fresh login. -/
theorem ensureAuthenticated_safety_margin_witness :
    ensureAuthenticated H0 5 wValid [] = (.ok (), wValid, []) ∧
    (isTokenValid wMargin = false ∧
      ensureAuthenticated H0 5 wMargin [] = login H0 5 (tryRestoreSession wMargin).2 []) := by
  refine ⟨(ensureAuthenticated_safety_margin H0 5 wValid []).1 (by decide), ?_⟩
  have h2 := (ensureAuthenticated_safety_margin H0 5 wMargin []).2 (by decide)
  exact ⟨h2.1, h2.2 (by decide)⟩

/-- C4: a stored bundle tagged with a region different from the configured
one is treated as absent: `tryRestoreSession` deletes it, adopts none of its
fields (the state is unchanged apart from the deleted bundle), and reports
failure; `ensureAuthenticated` consequently falls through to a fresh
`login()`. -/
theorem tryRestoreSession_region_mismatch (H : String → String) (fuel : Nat)
    (w : World) (t : StoredTokenData) (tr : List Resp)
    (hm : w.hasConfigManager = true) (hs : w.store = .present t)
    (hr : t.region ≠ w.config.region) :
    tryRestoreSession w = (false, { w with store := StoreState.absent }) ∧
    (isTokenValid w = false →
      ensureAuthenticated H fuel w tr =
        login H fuel { w with store := StoreState.absent } tr) := by
  have h1 : tryRestoreSession w = (false, { w with store := StoreState.absent }) := by
    simp [tryRestoreSession, hm, hs, hr]
  refine ⟨h1, fun hv => ?_⟩
  have hv2 : isTokenValid { w with store := StoreState.absent } = false := hv
  simp [ensureAuthenticated, hv, h1, hv2]

/-- The state of the region-mismatch scenario: configured region EU, stored
bundle tagged US. -/
def wMismatch : World :=
  { wFresh with store := .present ⟨"tokUS", 1500000000, "uUS", "aUS", "US"⟩ }

/-- Witness for the region-mismatch theorem at a concrete state. -/
theorem tryRestoreSession_region_mismatch_witness :
    tryRestoreSession wMismatch = (false, { wMismatch with store := StoreState.absent }) ∧
    ensureAuthenticated H0 3 wMismatch [] =
      login H0 3 { wMismatch with store := StoreState.absent } [] := by
  have h := tryRestoreSession_region_mismatch H0 3 wMismatch
    ⟨"tokUS", 1500000000, "uUS", "aUS", "US"⟩ [] (by decide) (by decide) (by decide)
  exact ⟨h.1, h.2 (by decide)⟩

/-- The state left behind by the `clear_session` handler, written out. -/
def clearedWorld (w : World) : World :=
  { w with
    jwtToken := none
    accountId := none
    userId := none
    patientId := none
    tokenExpires := 0
    store := StoreState.absent }

/-- C8: after the `clear_session` handler (client `clearSession()` followed by
`configManager.clearToken()`) the in-memory session is fully dropped, the
persisted bundle is deleted, `getSessionStatus()` reports unauthenticated with
no expiry, and any subsequent `ensureAuthenticated()` is a full `login()`. -/
theorem clearSession_drops_everything (w : World) :
    clearSessionHandler w = clearedWorld w ∧
    (clearSessionHandler w).jwtToken = none ∧
    (clearSessionHandler w).accountId = none ∧
    (clearSessionHandler w).userId = none ∧
    (clearSessionHandler w).patientId = none ∧
    (clearSessionHandler w).tokenExpires = 0 ∧
    (clearSessionHandler w).store = StoreState.absent ∧
    getSessionStatus (clearSessionHandler w) = ⟨false, false, none⟩ ∧
    (∀ (H : String → String) (fuel : Nat) (tr : List Resp),
      ensureAuthenticated H fuel (clearSessionHandler w) tr =
        login H fuel (clearSessionHandler w) tr) := by
  have hw : clearSessionHandler w = clearedWorld w := by
    unfold clearSessionHandler clearSession clearedWorld
    by_cases hm : w.hasConfigManager <;> simp [hm]
  rw [hw]
  refine ⟨rfl, rfl, rfl, rfl, rfl, rfl, rfl,
    by simp [getSessionStatus, isTokenValid, truthy, clearedWorld], ?_⟩
  intro H fuel tr
  have hv : isTokenValid (clearedWorld w) = false := by
    simp [isTokenValid, truthy, clearedWorld]
  have hres : tryRestoreSession (clearedWorld w) = (false, clearedWorld w) := by
    unfold tryRestoreSession clearedWorld
    by_cases hm : w.hasConfigManager <;> simp [hm]
  simp [ensureAuthenticated, hv, hres]

/-- C9: `getSessionStatus()` is a pure read of the in-memory token fields and
the clock: its value depends only on `jwtToken`, `accountId`, `tokenExpires`
and `Date.now()` — two states agreeing on those four (whatever their stores,
base URLs, configs or other fields) yield the same status, and by construction
the call returns without modifying any state or consuming any trace. -/
theorem getSessionStatus_pure_frame (w1 w2 : World)
    (ht : w1.jwtToken = w2.jwtToken) (ha : w1.accountId = w2.accountId)
    (he : w1.tokenExpires = w2.tokenExpires) (hn : w1.now = w2.now) :
    getSessionStatus w1 = getSessionStatus w2 := by
  simp [getSessionStatus, isTokenValid, ht, ha, he, hn]

/-- Witness for the status frame theorem: two states sharing only the token
fields and clock — different store, user id, patient id, region and base URL —
have identical status. -/
theorem getSessionStatus_pure_frame_witness :
    getSessionStatus wValid =
      getSessionStatus { wValid with
        config := { cfgEU with region := "US" }
        baseUrl := "elsewhere"
        userId := some "other"
        patientId := some "p9"
        store := StoreState.corrupted } := by
  exact getSessionStatus_pure_frame _ _ (by decide) (by decide) (by decide) (by decide)

end LibreLink

namespace LibreLink

/-- `saveSession` writes only the store; every in-memory field survives. -/
theorem saveSession_frame (w : World) :
    (saveSession w).hasConfigManager = w.hasConfigManager ∧
    (saveSession w).jwtToken = w.jwtToken ∧
    (saveSession w).accountId = w.accountId ∧
    (saveSession w).userId = w.userId ∧
    (saveSession w).patientId = w.patientId ∧
    (saveSession w).tokenExpires = w.tokenExpires ∧
    (saveSession w).now = w.now ∧
    (saveSession w).baseUrl = w.baseUrl ∧
    (saveSession w).config = w.config := by
  unfold saveSession
  split <;> exact ⟨rfl, rfl, rfl, rfl, rfl, rfl, rfl, rfl, rfl⟩

/-- C10: `updateConfig()` with a truthy new email, password or region drops
`jwtToken`, `accountId` and `patientId` (so the status right after reports
unauthenticated) while leaving `userId` and `tokenExpires` as they were — the
status still exposes the old expiry — and repoints the base URL when a region
was given; a patch carrying none of those three fields leaves every
authentication-related field, the base URL and the store untouched. -/
theorem updateConfig_resets_auth (p : ConfigPatch) (w : World) :
    ((truthy p.email || truthy p.password || truthy p.region) = true →
      (updateConfig p w).jwtToken = none ∧
      (updateConfig p w).accountId = none ∧
      (updateConfig p w).patientId = none ∧
      (updateConfig p w).userId = w.userId ∧
      (updateConfig p w).tokenExpires = w.tokenExpires ∧
      (getSessionStatus (updateConfig p w)).authenticated = false ∧
      (getSessionStatus (updateConfig p w)).expiresAt = (getSessionStatus w).expiresAt ∧
      (∀ r, p.region = some r → r ≠ "" → (updateConfig p w).baseUrl = serverFor r)) ∧
    (p.email = none → p.password = none → p.region = none →
      (updateConfig p w).jwtToken = w.jwtToken ∧
      (updateConfig p w).accountId = w.accountId ∧
      (updateConfig p w).patientId = w.patientId ∧
      (updateConfig p w).userId = w.userId ∧
      (updateConfig p w).tokenExpires = w.tokenExpires ∧
      (updateConfig p w).baseUrl = w.baseUrl ∧
      (updateConfig p w).store = w.store ∧
      getSessionStatus (updateConfig p w) = getSessionStatus w) := by
  constructor
  · intro h
    by_cases hr : truthy p.region = true
    · have hw : updateConfig p w =
          { w with
            config := mergeConfig w.config p
            jwtToken := none
            accountId := none
            patientId := none
            baseUrl := serverFor (p.region.getD "") } := by
        unfold updateConfig
        simp only [h, hr]
        simp
      rw [hw]
      refine ⟨rfl, rfl, rfl, rfl, rfl, ?_, ?_, ?_⟩
      · simp [getSessionStatus, truthy]
      · rfl
      · intro r hr1 _
        rw [hr1]
        rfl
    · have hr' : truthy p.region = false := by
        simpa using hr
      have hw : updateConfig p w =
          { w with
            config := mergeConfig w.config p
            jwtToken := none
            accountId := none
            patientId := none } := by
        unfold updateConfig
        simp only [h]
        simp only [hr']
        simp
      rw [hw]
      refine ⟨rfl, rfl, rfl, rfl, rfl, ?_, ?_, ?_⟩
      · simp [getSessionStatus, truthy]
      · rfl
      · intro r hr1 hr2
        exact absurd (by simp [truthy, hr1, hr2]) hr
  · intro he hp hg
    have hc : (truthy p.email || truthy p.password || truthy p.region) = false := by
      simp [he, hp, hg, truthy]
    have hw : updateConfig p w = { w with config := mergeConfig w.config p } := by
      unfold updateConfig
      simp only [hc]
      simp
    rw [hw]
    exact ⟨rfl, rfl, rfl, rfl, rfl, rfl, rfl, rfl⟩

/-- A credentials-and-region patch used by the `updateConfig` witness. -/
def pCred : ConfigPatch := { email := some "n@x.io", password := some "pw2", region := some "US" }

/-- An empty patch used by the `updateConfig` witness. -/
def pEmpty : ConfigPatch := {}

/-- Witness for the `updateConfig` theorem at concrete patches. -/
theorem updateConfig_resets_auth_witness :
    ((updateConfig pCred wValid).jwtToken = none ∧
      (updateConfig pCred wValid).userId = wValid.userId ∧
      (updateConfig pCred wValid).tokenExpires = wValid.tokenExpires ∧
      (getSessionStatus (updateConfig pCred wValid)).authenticated = false ∧
      (getSessionStatus (updateConfig pCred wValid)).expiresAt
        = (getSessionStatus wValid).expiresAt ∧
      (updateConfig pCred wValid).baseUrl = serverFor "US") ∧
    getSessionStatus (updateConfig pEmpty wValid) = getSessionStatus wValid := by
  have h1 := (updateConfig_resets_auth pCred wValid).1 (by decide)
  have h2 := (updateConfig_resets_auth pEmpty wValid).2 rfl rfl rfl
  exact ⟨⟨h1.1, h1.2.2.2.1, h1.2.2.2.2.1, h1.2.2.2.2.2.1, h1.2.2.2.2.2.2.1,
    h1.2.2.2.2.2.2.2 "US" rfl (by decide)⟩, h2.2.2.2.2.2.2.2⟩

/-- After any successful `login()`, the in-memory ids are consistent: the
account id is the digest of the user id adopted from the response. -/
theorem login_ok_ids (H : String → String) (fuel : Nat) :
    ∀ (w : World) (tr : List Resp),
      (login H fuel w tr).1 = .ok () →
      ∃ u, ((login H fuel w tr).2.1).userId = some u ∧
        ((login H fuel w tr).2.1).accountId = some (generateAccountId H u) := by
  induction fuel with
  | zero => intro w tr h; simp [login] at h
  | succ n ih =>
    intro w tr h
    match tr with
    | [] => simp [login] at h
    | Resp.conn c :: rest => simp [login] at h
    | Resp.graph g :: rest => simp [login] at h
    | Resp.auth LoginHttp.code401 :: rest => simp [login] at h
    | Resp.auth (LoginHttp.other m) :: rest => simp [login] at h
    | Resp.auth (LoginHttp.code403 mv rh) :: rest =>
      rcases mv with _ | v
      · rcases hrh : rh <;> simp [login, hrh] at h
      · simp [login] at h
    | Resp.auth (LoginHttp.ok body) :: rest =>
      by_cases hb : (body.redirect && body.region.isSome) = true
      · rw [login] at h ⊢
        simp only [hb, if_true] at h ⊢
        exact ih _ _ h
      · rcases hat : body.authTicket with _ | t
        · simp [login, hb, hat] at h
        · by_cases hs : (body.status != 0) = true
          · simp [login, hb, hat, hs] at h
          · rw [login] at h ⊢
            simp only [hb, hat, hs, Bool.false_eq_true, if_false] at h ⊢
            refine ⟨body.userId, ?_, ?_⟩
            · rw [(saveSession_frame _).2.2.2.1]
            · rw [(saveSession_frame _).2.2.1]

/-- C5: after every successful `login()` the in-memory account id is the
digest (`generateAccountId`, the SHA-256 hex of Node's crypto) of the adopted
user id; `createAuthenticatedClient()` attaches both `Authorization: Bearer`
and `Account-Id` headers when token and account id are present, and fails when
either is missing. -/
theorem login_accountId_and_headers (H : String → String) (fuel : Nat) (w : World)
    (tr : List Resp) :
    ((login H fuel w tr).1 = .ok () →
      ∃ u, ((login H fuel w tr).2.1).userId = some u ∧
        ((login H fuel w tr).2.1).accountId = some (generateAccountId H u)) ∧
    (∀ t a, w.jwtToken = some t → w.accountId = some a → t ≠ "" → a ≠ "" →
      createAuthenticatedClient w =
        .ok (baseHeaders w ++ [("Authorization", "Bearer " ++ t), ("Account-Id", a)])) ∧
    ((truthy w.jwtToken = false ∨ truthy w.accountId = false) →
      createAuthenticatedClient w = .error .notAuthenticated) := by
  refine ⟨login_ok_ids H fuel w tr, ?_, ?_⟩
  · intro t a ht ha ht' ha'
    simp [createAuthenticatedClient, truthy, ht, ha, ht', ha']
  · intro h
    rcases h with h | h <;> simp [createAuthenticatedClient, h]

/-- Witness for the account-id/headers theorem: a concrete successful login,
a concrete authenticated client, and a concrete rejection without a token. -/
theorem login_accountId_and_headers_witness :
    (∃ u, ((login H0 1 wFresh [Resp.auth (.ok okBody)]).2.1).userId = some u ∧
      ((login H0 1 wFresh [Resp.auth (.ok okBody)]).2.1).accountId
        = some (generateAccountId H0 u)) ∧
    createAuthenticatedClient wValid =
      .ok (baseHeaders wValid ++
        [("Authorization", "Bearer " ++ "tokOld"), ("Account-Id", "acctOld")]) ∧
    createAuthenticatedClient wFresh = .error .notAuthenticated := by
  refine ⟨(login_accountId_and_headers H0 1 wFresh [Resp.auth (.ok okBody)]).1 (by decide),
    (login_accountId_and_headers H0 1 wValid []).2.1 "tokOld" "acctOld" rfl rfl
      (by decide) (by decide),
    (login_accountId_and_headers H0 1 wFresh []).2.2 (Or.inl (by decide))⟩

end LibreLink

namespace LibreLink

/-- The corrupted-store scenario: a fresh client whose stored token envelope
fails its integrity check. -/
def wCorrupt : World := { wFresh with store := StoreState.corrupted }

/-- C6 counterexample: with a corrupted token store, `tryRestoreSession()`
catches the storage error and returns plain `false` — indistinguishable from
"no token stored" — and `ensureAuthenticated()` then performs a fresh login
that succeeds; no integrity error reaches the caller. -/
theorem corrupted_store_swallowed_counterexample :
    tryRestoreSession wCorrupt = (false, wCorrupt) ∧
    (ensureAuthenticated H0 1 wCorrupt [Resp.auth (.ok okBody)]).1 = .ok () ∧
    ((ensureAuthenticated H0 1 wCorrupt [Resp.auth (.ok okBody)]).2.1).jwtToken
      = some "tok2" := by
  exact ⟨by decide, by decide, by decide⟩

/-- C6 as amended: an integrity/storage failure while reading the stored
token during restoration is caught inside `tryRestoreSession()` (which logs it
and returns `false`, leaving the state untouched), so it is silently converted
into the absent-token outcome, and `ensureAuthenticated()` falls through to a
fresh `login()` — the failure is never surfaced to the caller. -/
theorem corrupted_store_swallowed (H : String → String) (fuel : Nat) (w : World)
    (tr : List Resp) (hs : w.store = StoreState.corrupted) :
    tryRestoreSession w = (false, w) ∧
    (isTokenValid w = false → ensureAuthenticated H fuel w tr = login H fuel w tr) := by
  have h1 : tryRestoreSession w = (false, w) := by
    unfold tryRestoreSession
    by_cases hm : w.hasConfigManager <;> simp [hm, hs]
  refine ⟨h1, fun hv => ?_⟩
  simp [ensureAuthenticated, hv, h1]

/-- Witness for the amended corrupted-store theorem at a concrete state. -/
theorem corrupted_store_swallowed_witness :
    tryRestoreSession wCorrupt = (false, wCorrupt) ∧
    ensureAuthenticated H0 2 wCorrupt [] = login H0 2 wCorrupt [] := by
  have h := corrupted_store_swallowed H0 2 wCorrupt [] (by decide)
  exact ⟨h.1, h.2 (by decide)⟩

/-- C7 counterexample: a login attempt that is redirected to region US and
then rejected with a 401 fails — yet it leaves the configured region and base
URL permanently switched to US, not as they were before the call. -/
theorem login_failure_region_counterexample :
    (login H0 2 wFresh [Resp.auth (.ok (redirBody "us")), Resp.auth .code401]).1
      = .error .authFailed ∧
    ((login H0 2 wFresh [Resp.auth (.ok (redirBody "us")), Resp.auth .code401]).2.1).config.region
      = "US" ∧
    wFresh.config.region = "EU" ∧
    ((login H0 2 wFresh [Resp.auth (.ok (redirBody "us")), Resp.auth .code401]).2.1).baseUrl
      = "https://api-us.libreview.io" ∧
    wFresh.baseUrl = "https://api-eu.libreview.io" := by
  exact ⟨by decide, by decide, by decide, by decide, by decide⟩

/-- C7 as amended: a failed `login()` leaves `jwtToken`, `tokenExpires`,
`userId`, `accountId`, `patientId` and the stored bundle exactly as they were,
but any region redirect processed before the failure has already updated the
configured region and base URL, and those updates survive the failure. -/
theorem login_failure_frame (H : String → String) (fuel : Nat) :
    ∀ (w : World) (tr : List Resp) (e : LLError),
      (login H fuel w tr).1 = .error e →
      ((login H fuel w tr).2.1).jwtToken = w.jwtToken ∧
      ((login H fuel w tr).2.1).tokenExpires = w.tokenExpires ∧
      ((login H fuel w tr).2.1).userId = w.userId ∧
      ((login H fuel w tr).2.1).accountId = w.accountId ∧
      ((login H fuel w tr).2.1).patientId = w.patientId ∧
      ((login H fuel w tr).2.1).store = w.store := by
  induction fuel with
  | zero => intro w tr e h; exact ⟨rfl, rfl, rfl, rfl, rfl, rfl⟩
  | succ n ih =>
    intro w tr e h
    match tr with
    | [] => exact ⟨rfl, rfl, rfl, rfl, rfl, rfl⟩
    | Resp.conn c :: rest => exact ⟨rfl, rfl, rfl, rfl, rfl, rfl⟩
    | Resp.graph g :: rest => exact ⟨rfl, rfl, rfl, rfl, rfl, rfl⟩
    | Resp.auth LoginHttp.code401 :: rest => exact ⟨rfl, rfl, rfl, rfl, rfl, rfl⟩
    | Resp.auth (LoginHttp.other m) :: rest => exact ⟨rfl, rfl, rfl, rfl, rfl, rfl⟩
    | Resp.auth (LoginHttp.code403 mv rh) :: rest =>
      rcases mv with _ | v
      · rcases rh <;> exact ⟨rfl, rfl, rfl, rfl, rfl, rfl⟩
      · exact ⟨rfl, rfl, rfl, rfl, rfl, rfl⟩
    | Resp.auth (LoginHttp.ok body) :: rest =>
      by_cases hb : (body.redirect && body.region.isSome) = true
      · rw [login] at h ⊢
        simp only [hb, if_true] at h ⊢
        exact ih _ rest e h
      · rcases hat : body.authTicket with _ | t
        · rw [login]
          simp [hb, hat]
        · by_cases hs : (body.status != 0) = true
          · rw [login]
            simp [hb, hat, hs]
          · rw [login] at h
            simp only [hb, hat, hs, Bool.false_eq_true, if_false] at h
            simp at h

/-- Witness for the login failure-frame theorem: a concrete rejected login
leaves the token fields and store unchanged. -/
theorem login_failure_frame_witness :
    ((login H0 1 wValid [Resp.auth .code401]).2.1).jwtToken = wValid.jwtToken ∧
    ((login H0 1 wValid [Resp.auth .code401]).2.1).tokenExpires = wValid.tokenExpires ∧
    ((login H0 1 wValid [Resp.auth .code401]).2.1).userId = wValid.userId ∧
    ((login H0 1 wValid [Resp.auth .code401]).2.1).accountId = wValid.accountId ∧
    ((login H0 1 wValid [Resp.auth .code401]).2.1).patientId = wValid.patientId ∧
    ((login H0 1 wValid [Resp.auth .code401]).2.1).store = wValid.store :=
  login_failure_frame H0 1 wValid [Resp.auth .code401] .authFailed (by decide)

end LibreLink

namespace LibreLink

/-- C2 counterexample: a login whose first response redirects to US and whose
second response (from the US endpoint) redirects again to EU is followed
through BOTH hops — the trace is fully consumed, the configured region ends at
the second hop's value and the third response is adopted — so redirect
handling is not bounded to one hop; and a run fed only redirects exhausts any
fuel instead of terminating (the recursion has no hop counter). -/
theorem login_redirect_counterexample :
    (login H0 3 wFresh [Resp.auth (.ok (redirBody "us")), Resp.auth (.ok (redirBody "eu")),
        Resp.auth (.ok okBody)]).1 = .ok () ∧
    (login H0 3 wFresh [Resp.auth (.ok (redirBody "us")), Resp.auth (.ok (redirBody "eu")),
        Resp.auth (.ok okBody)]).2.2 = [] ∧
    ((login H0 3 wFresh [Resp.auth (.ok (redirBody "us")), Resp.auth (.ok (redirBody "eu")),
        Resp.auth (.ok okBody)]).2.1).config.region = "EU" ∧
    ((login H0 3 wFresh [Resp.auth (.ok (redirBody "us")), Resp.auth (.ok (redirBody "eu")),
        Resp.auth (.ok okBody)]).2.1).baseUrl = "https://api-eu.libreview.io" ∧
    (login H0 2 wFresh [Resp.auth (.ok (redirBody "us")), Resp.auth (.ok (redirBody "eu"))]).1
      = .error .outOfFuel := by
  exact ⟨by decide, by decide, by decide, by decide, by decide⟩

/-- C2 as amended: on a region-redirect response `login()` updates the
configured region and base URL and retries against the new endpoint, but with
NO hop bound: it follows every redirect in the trace (any number `k` of hops
followed by a success still succeeds), and when every endpoint answers with a
redirect it never terminates — every fuel value is exhausted. -/
theorem login_redirect_unbounded (H : String → String) :
    (∀ (n : Nat) (w : World), (login H n w (redirTrace n)).1 = .error .outOfFuel) ∧
    (∀ (k : Nat) (w : World),
      (login H (k + 1) w (redirTrace k ++ [Resp.auth (.ok okBody)])).1 = .ok ()) := by
  constructor
  · intro n
    induction n with
    | zero => intro w; rfl
    | succ m ih =>
      intro w
      rw [show redirTrace (m + 1) = Resp.auth (.ok (redirBody "us")) :: redirTrace m from rfl]
      rw [login]
      simp only [redirBody, Bool.true_and, Option.isSome_some, if_true]
      exact ih _
  · intro k
    induction k with
    | zero =>
      intro w
      rw [show redirTrace 0 ++ [Resp.auth (.ok okBody)] = [Resp.auth (.ok okBody)] from rfl]
      rw [login]
      simp [okBody]
    | succ m ih =>
      intro w
      rw [show redirTrace (m + 1) ++ [Resp.auth (.ok okBody)]
        = Resp.auth (.ok (redirBody "us")) :: (redirTrace m ++ [Resp.auth (.ok okBody)]) from rfl]
      rw [login]
      simp only [redirBody, Bool.true_and, Option.isSome_some, if_true]
      exact ih _

end LibreLink

namespace LibreLink

/-- The state after one 401-triggered re-login cycle against `okBody`: stored
bundle cleared then re-saved by `saveSession`, token/ids replaced by the fresh
ticket (expiry `2000000 s`, converted to ms by `login`). -/
def afterRelogin (H : String → String) (w : World) : World :=
  saveSession
    { w with
      store := StoreState.absent
      jwtToken := some "tok2"
      tokenExpires := 2000000 * 1000
      userId := some "u1"
      accountId := some (generateAccountId H "u1") }

/-- One 401 cycle of `getConnections`: the 401 clears the stored and
in-memory token, `ensureAuthenticated` performs the re-login, and the call
retries on the rest of the trace with one unit of fuel consumed. -/
theorem conn401_cycle_step (H : String → String) (j : Nat) (w : World)
    (rest : List Resp) (hm : w.hasConfigManager = true)
    (ht : truthy w.jwtToken = true) (ha : truthy w.accountId = true)
    (hv : w.now < w.tokenExpires - 300000) :
    getConnections H (j + 2) w (Resp.conn .code401 :: Resp.auth (.ok okBody) :: rest) =
      getConnections H (j + 1) (afterRelogin H w) rest := by
  have hval : isTokenValid w = true := by
    simp [isTokenValid, ht, ha, hv]
  have e1 : ensureAuthenticated H (j + 1) w
      (Resp.conn .code401 :: Resp.auth (.ok okBody) :: rest) =
      (.ok (), w, Resp.conn .code401 :: Resp.auth (.ok okBody) :: rest) := by
    simp [ensureAuthenticated, hval]
  have e2 : createAuthenticatedClient w =
      .ok (baseHeaders w ++ [("Authorization", "Bearer " ++ w.jwtToken.getD ""),
        ("Account-Id", w.accountId.getD "")]) := by
    simp [createAuthenticatedClient, ht, ha]
  have hv2 : isTokenValid { w with store := StoreState.absent, jwtToken := none } = false := by
    simp [isTokenValid, truthy]
  have ht2 : tryRestoreSession { w with store := StoreState.absent, jwtToken := none } =
      (false, { w with store := StoreState.absent, jwtToken := none }) := by
    simp [tryRestoreSession, hm]
  have e3 : ensureAuthenticated H (j + 1)
      { w with store := StoreState.absent, jwtToken := none }
      (Resp.auth (.ok okBody) :: rest) = (.ok (), afterRelogin H w, rest) := by
    unfold ensureAuthenticated
    rw [hv2, ht2]
    simp only [Bool.false_eq_true, if_false, hv2]
    rw [login]
    simp [okBody, afterRelogin, generateAccountId]
  rw [getConnections]
  simp only [e1, e2]
  rw [show (if w.hasConfigManager = true then StoreState.absent else w.store)
    = StoreState.absent from by simp [hm]]
  rw [e3]

/-- Every number of consecutive 401 rejections (each absorbed by a re-login)
is absorbed by `getConnections`: with `k` cycles in the trace the call still
returns the final successful response. -/
theorem getConnections_cycles (H : String → String) (hH : H "u1" ≠ "") :
    ∀ (k : Nat) (w : World), w.hasConfigManager = true → truthy w.jwtToken = true →
      truthy w.accountId = true → w.now < w.tokenExpires - 300000 →
      w.now < 1999700000 →
      (getConnections H (k + 2) w (connCycleTrace k)).1 = .ok [⟨"p1"⟩] := by
  intro k
  induction k with
  | zero =>
    intro w hm ht ha hv hn
    have hval : isTokenValid w = true := by
      simp [isTokenValid, ht, ha, hv]
    have e1 : ensureAuthenticated H 1 w (connCycleTrace 0) =
        (.ok (), w, connCycleTrace 0) := by
      simp [ensureAuthenticated, hval]
    have e2 : createAuthenticatedClient w =
        .ok (baseHeaders w ++ [("Authorization", "Bearer " ++ w.jwtToken.getD ""),
          ("Account-Id", w.accountId.getD "")]) := by
      simp [createAuthenticatedClient, ht, ha]
    rw [getConnections]
    rw [show connCycleTrace 0 = [Resp.conn (.ok (some [⟨"p1"⟩]))] from rfl] at e1 ⊢
    simp only [e1, e2]
    rfl
  | succ j ih =>
    intro w hm ht ha hv hn
    rw [show connCycleTrace (j + 1)
      = Resp.conn .code401 :: Resp.auth (.ok okBody) :: connCycleTrace j from rfl]
    rw [conn401_cycle_step H (j + 1) w (connCycleTrace j) hm ht ha hv]
    have hfm : (afterRelogin H w).hasConfigManager = true := by
      unfold afterRelogin; rw [(saveSession_frame _).1]; exact hm
    have hft : truthy (afterRelogin H w).jwtToken = true := by
      unfold afterRelogin; rw [(saveSession_frame _).2.1]; rfl
    have hfa : truthy (afterRelogin H w).accountId = true := by
      unfold afterRelogin; rw [(saveSession_frame _).2.2.1]
      simp [truthy, generateAccountId, hH]
    have hfv : (afterRelogin H w).now < (afterRelogin H w).tokenExpires - 300000 := by
      unfold afterRelogin
      rw [(saveSession_frame _).2.2.2.2.2.2.1, (saveSession_frame _).2.2.2.2.2.1]
      show w.now < 2000000 * 1000 - 300000
      omega
    have hfn : (afterRelogin H w).now < 1999700000 := by
      unfold afterRelogin; rw [(saveSession_frame _).2.2.2.2.2.2.1]; exact hn
    exact ih (afterRelogin H w) hfm hft hfa hfv hfn

end LibreLink

namespace LibreLink

/-- One 401 cycle of `getGraphData` (with the patient id already cached):
clear, re-login, retry, one unit of fuel consumed. -/
theorem graph401_cycle_step (H : String → String) (j : Nat) (w : World)
    (rest : List Resp) (hm : w.hasConfigManager = true)
    (ht : truthy w.jwtToken = true) (ha : truthy w.accountId = true)
    (hv : w.now < w.tokenExpires - 300000) (hp : w.patientId = some "p1") :
    getGraphData H (j + 2) w (Resp.graph .code401 :: Resp.auth (.ok okBody) :: rest) =
      getGraphData H (j + 1) (afterRelogin H w) rest := by
  have hval : isTokenValid w = true := by
    simp [isTokenValid, ht, ha, hv]
  have e1 : ensureAuthenticated H (j + 1) w
      (Resp.graph .code401 :: Resp.auth (.ok okBody) :: rest) =
      (.ok (), w, Resp.graph .code401 :: Resp.auth (.ok okBody) :: rest) := by
    simp [ensureAuthenticated, hval]
  have ep : ∀ t, getPatientId H (j + 1) w t = (.ok "p1", w, t) := by
    intro t
    simp [getPatientId, hp]
  have e2 : createAuthenticatedClient w =
      .ok (baseHeaders w ++ [("Authorization", "Bearer " ++ w.jwtToken.getD ""),
        ("Account-Id", w.accountId.getD "")]) := by
    simp [createAuthenticatedClient, ht, ha]
  have hv2 : isTokenValid { w with store := StoreState.absent, jwtToken := none } = false := by
    simp [isTokenValid, truthy]
  have ht2 : tryRestoreSession { w with store := StoreState.absent, jwtToken := none } =
      (false, { w with store := StoreState.absent, jwtToken := none }) := by
    simp [tryRestoreSession, hm]
  have e3 : ensureAuthenticated H (j + 1)
      { w with store := StoreState.absent, jwtToken := none }
      (Resp.auth (.ok okBody) :: rest) = (.ok (), afterRelogin H w, rest) := by
    unfold ensureAuthenticated
    rw [hv2, ht2]
    simp only [Bool.false_eq_true, if_false, hv2]
    rw [login]
    simp [okBody, afterRelogin, generateAccountId]
  rw [getGraphData]
  simp only [e1, ep, e2]
  rw [show (if w.hasConfigManager = true then StoreState.absent else w.store)
    = StoreState.absent from by simp [hm]]
  rw [e3]

/-- Every number of consecutive 401 rejections is absorbed by `getGraphData`
as well. -/
theorem getGraphData_cycles (H : String → String) (hH : H "u1" ≠ "") :
    ∀ (k : Nat) (w : World), w.hasConfigManager = true → truthy w.jwtToken = true →
      truthy w.accountId = true → w.now < w.tokenExpires - 300000 →
      w.now < 1999700000 → w.patientId = some "p1" →
      (getGraphData H (k + 2) w (graphCycleTrace k)).1 = .ok ⟨"graph"⟩ := by
  intro k
  induction k with
  | zero =>
    intro w hm ht ha hv hn hp
    have hval : isTokenValid w = true := by
      simp [isTokenValid, ht, ha, hv]
    have e1 : ensureAuthenticated H 1 w (graphCycleTrace 0) =
        (.ok (), w, graphCycleTrace 0) := by
      simp [ensureAuthenticated, hval]
    have ep : getPatientId H 1 w (graphCycleTrace 0) = (.ok "p1", w, graphCycleTrace 0) := by
      simp [getPatientId, hp]
    have e2 : createAuthenticatedClient w =
        .ok (baseHeaders w ++ [("Authorization", "Bearer " ++ w.jwtToken.getD ""),
          ("Account-Id", w.accountId.getD "")]) := by
      simp [createAuthenticatedClient, ht, ha]
    rw [getGraphData]
    rw [show graphCycleTrace 0 = [Resp.graph (.ok ⟨"graph"⟩)] from rfl] at e1 ep ⊢
    simp only [e1, ep, e2]
  | succ j ih =>
    intro w hm ht ha hv hn hp
    rw [show graphCycleTrace (j + 1)
      = Resp.graph .code401 :: Resp.auth (.ok okBody) :: graphCycleTrace j from rfl]
    rw [graph401_cycle_step H (j + 1) w (graphCycleTrace j) hm ht ha hv hp]
    have hfm : (afterRelogin H w).hasConfigManager = true := by
      unfold afterRelogin; rw [(saveSession_frame _).1]; exact hm
    have hft : truthy (afterRelogin H w).jwtToken = true := by
      unfold afterRelogin; rw [(saveSession_frame _).2.1]; rfl
    have hfa : truthy (afterRelogin H w).accountId = true := by
      unfold afterRelogin; rw [(saveSession_frame _).2.2.1]
      simp [truthy, generateAccountId, hH]
    have hfv : (afterRelogin H w).now < (afterRelogin H w).tokenExpires - 300000 := by
      unfold afterRelogin
      rw [(saveSession_frame _).2.2.2.2.2.2.1, (saveSession_frame _).2.2.2.2.2.1]
      show w.now < 2000000 * 1000 - 300000
      omega
    have hfn : (afterRelogin H w).now < 1999700000 := by
      unfold afterRelogin; rw [(saveSession_frame _).2.2.2.2.2.2.1]; exact hn
    have hfp : (afterRelogin H w).patientId = some "p1" := by
      unfold afterRelogin; rw [(saveSession_frame _).2.2.2.2.1]; exact hp
    exact ih (afterRelogin H w) hfm hft hfa hfv hfn hfp

/-- C1 counterexample: a run of `getConnections` whose trace carries TWO 401
rejections (each followed by a successful login) ends in success with the
whole trace consumed and the twice-renewed token in memory — the second 401
after the first retry was not surfaced to the caller but triggered another
re-login cycle; `getGraphData` behaves the same way. -/
theorem unauthorized_retry_counterexample :
    (getConnections H0 4 wValid (connCycleTrace 2)).1 = .ok [⟨"p1"⟩] ∧
    (getConnections H0 4 wValid (connCycleTrace 2)).2.2 = [] ∧
    ((getConnections H0 4 wValid (connCycleTrace 2)).2.1).jwtToken = some "tok2" ∧
    (getGraphData H0 4 { wValid with patientId := some "p1" } (graphCycleTrace 2)).1
      = .ok ⟨"graph"⟩ := by
  exact ⟨by decide, by decide, by decide, by decide⟩

/-- C1 as amended: a 401 from a data call does trigger a forced re-login
cycle (stored token cleared, in-memory token dropped, `login()` re-run, call
retried), but the cycle is NOT bounded to one: every further 401 triggers
another full cycle — for every `k`, a trace with `k` consecutive 401s, each
followed by a successful re-login, still ends in success, so a second 401 is
never surfaced; the recursion is unbounded. -/
theorem unauthorized_retry_unbounded (H : String → String) (k : Nat) (w : World)
    (hm : w.hasConfigManager = true) (ht : truthy w.jwtToken = true)
    (ha : truthy w.accountId = true) (hv : w.now < w.tokenExpires - 300000)
    (hn : w.now < 1999700000) (hH : H "u1" ≠ "") :
    (getConnections H (k + 2) w (connCycleTrace k)).1 = .ok [⟨"p1"⟩] ∧
    (w.patientId = some "p1" →
      (getGraphData H (k + 2) w (graphCycleTrace k)).1 = .ok ⟨"graph"⟩) :=
  ⟨getConnections_cycles H hH k w hm ht ha hv hn,
   fun hp => getGraphData_cycles H hH k w hm ht ha hv hn hp⟩

/-- Witness for the unbounded-retry theorem: three 401 cycles absorbed at a
concrete state. -/
theorem unauthorized_retry_unbounded_witness :
    (getConnections H0 5 wValid (connCycleTrace 3)).1 = .ok [⟨"p1"⟩] ∧
    (getGraphData H0 5 { wValid with patientId := some "p1" } (graphCycleTrace 3)).1
      = .ok ⟨"graph"⟩ := by
  have h1 := unauthorized_retry_unbounded H0 3 wValid (by decide) (by decide) (by decide)
    (by decide) (by decide) (by decide)
  have h2 := unauthorized_retry_unbounded H0 3 { wValid with patientId := some "p1" }
    (by decide) (by decide) (by decide) (by decide) (by decide) (by decide)
  exact ⟨h1.1, h2.2 (by decide)⟩

end LibreLink

namespace LibreLink

/-- Witness for the unbounded-redirect theorem: four redirects exhaust fuel
four; two redirects followed by a success are both followed and succeed. -/
theorem login_redirect_unbounded_witness :
    (login H0 4 wFresh (redirTrace 4)).1 = .error .outOfFuel ∧
    (login H0 3 wFresh (redirTrace 2 ++ [Resp.auth (.ok okBody)])).1 = .ok () :=
  ⟨(login_redirect_unbounded H0).1 4 wFresh, (login_redirect_unbounded H0).2 2 wFresh⟩

/-- Witness for the clear-session theorem at a concrete authenticated state. -/
theorem clearSession_drops_everything_witness :
    getSessionStatus (clearSessionHandler wValid) = ⟨false, false, none⟩ ∧
    ensureAuthenticated H0 2 (clearSessionHandler wValid) [] =
      login H0 2 (clearSessionHandler wValid) [] := by
  have h := clearSession_drops_everything wValid
  exact ⟨h.2.2.2.2.2.2.2.1, h.2.2.2.2.2.2.2.2 H0 2 []⟩

end LibreLink
